import Mathlib

/-!
Shallow embedding of the campaign send-orchestration core of the
bulk_mailer repository (src/marketing_emails/tasks.py together with the
data model of src/mailer_app/models.py), and theorems settling the
claims about it.

Machine integers of the source are modelled as Nat (the counters are
Django PositiveIntegerFields and only ever incremented), database ids
as Nat, timestamps as Nat, JSON filter values as a small value type
with Python truthiness.
-/

namespace BulkMailer

/-- Campaign.STATUS_CHOICES of mailer_app/models.py, plus the extra
status string 'retrying' that process_campaign_task accepts. -/
inductive CStatus where
  | draft
  | scheduled
  | queued
  | sending
  | sent
  | failed
  | archived
  | retrying
deriving DecidableEq

/-- A JSON scalar stored in a Segment's filters or a contact's
custom_fields. -/
inductive FilterVal where
  | vstr (s : String)
  | vbool (b : Bool)
  | vnum (n : Int)
deriving DecidableEq

/-- Python truthiness of a JSON scalar, as used by
filters.get(key) tests in process_campaign_task. -/
def FilterVal.truthy : FilterVal → Bool
  | .vstr s => !(s == "")
  | .vbool b => b
  | .vnum n => !(n == 0)

/-- Python equality test of a JSON scalar against the string literal
'true', as in the line subscribed = filters['subscribed'] == 'true'. -/
def FilterVal.isStrTrue : FilterVal → Bool
  | .vstr s => s == "true"
  | .vbool _ => false
  | .vnum _ => false

/-- mailer_app.models.Contact, restricted to the fields the send
pipeline reads. contact_list is the optional owning-list foreign key. -/
structure Contact where
  id : Nat
  contact_list : Option Nat
  email : String
  first_name : Option String
  last_name : Option String
  company : Option String
  job_title : Option String
  custom_fields : Option (List (String × FilterVal))
  subscribed : Bool
deriving DecidableEq

/-- mailer_app.models.Segment.filters: the four criteria read by
process_campaign_task ('subscribed', 'company', 'custom_fields',
'contact_lists'); none means the key is absent from the JSON dict. -/
structure SegmentFilters where
  subscribed : Option FilterVal
  company : Option String
  custom_fields : Option (List (String × FilterVal))
  contact_lists : Option (List Nat)
deriving DecidableEq

/-- mailer_app.models.Campaign, restricted to the fields the send
pipeline reads and writes. segments holds the filters of the linked
Segment rows; contact_lists the ids of the linked ContactList rows. -/
structure Campaign where
  id : Nat
  status : CStatus
  contact_lists : List Nat
  segments : List SegmentFilters
  total_recipients : Nat
  successfully_sent : Nat
  failed_to_send : Nat
  sent_at : Option Nat
deriving DecidableEq

/-- mailer_app.models.Settings (AppSettings): the singleton settings
row read by send_single_email_task. -/
structure AppSettings where
  sender_email : String
  company_name : String
  company_address : String
  site_url : String
deriving DecidableEq

/-- Outcome of rendering one template string through the external
merge-tag engine: either the rendered text, or the engine's
distinguishable TemplateSyntaxError condition. -/
inductive RenderOut where
  | rendered (s : String)
  | renderError
deriving DecidableEq

/-- A template string together with the outcome the external engine
produces for it on this render context. -/
structure TmplStr where
  raw : String
  out : RenderOut
deriving DecidableEq

/-- mailer_app.models.EmailTemplate. -/
structure EmailTemplate where
  name : String
  subject : TmplStr
  html_content : TmplStr
  footer_html : TmplStr
deriving DecidableEq

/-! ## Segment filter evaluation (process_campaign_task, lines 374-387) -/

/-- Prefix test on lists, used to build the substring test below. -/
def listIsPrefOf [DecidableEq α] : List α → List α → Bool
  | [], _ => true
  | _ :: _, [] => false
  | a :: as, b :: bs => decide (a = b) && listIsPrefOf as bs

/-- Substring test on lists. -/
def listHasInf [DecidableEq α] (needle : List α) : List α → Bool
  | [] => needle.isEmpty
  | b :: bs => listIsPrefOf needle (b :: bs) || listHasInf needle bs

/-- Django company__icontains: case-insensitive substring match on the
contact's company; a NULL company never matches. -/
def icontains (field : Option String) (needle : String) : Bool :=
  match field with
  | none => false
  | some s => listHasInf needle.toLower.toList s.toLower.toList

/-- The 'subscribed' criterion of a segment filter: applied only when
the stored value is truthy, and then it compares the contact's
subscribed flag with (value == 'true'). -/
def subscribedCriterion (fv : Option FilterVal) (c : Contact) : Bool :=
  match fv with
  | some v => if v.truthy then c.subscribed == v.isStrTrue else true
  | none => true

/-- The 'company' criterion of a segment filter. -/
def companyCriterion (f : Option String) (c : Contact) : Bool :=
  match f with
  | some comp => if comp = "" then true else icontains c.company comp
  | none => true

/-- JSON containment of a single key/value pair in the contact's
custom_fields, as custom_fields__has_key plus custom_fields__contains. -/
def hasKV (cf : Option (List (String × FilterVal))) (k : String) (v : FilterVal) : Bool :=
  match cf with
  | none => false
  | some l => l.any (fun kv => decide (kv.1 = k) && decide (kv.2 = v))

/-- The 'custom_fields' criterion of a segment filter: every listed
key/value pair must be contained in the contact's custom_fields. -/
def customFieldsCriterion (f : Option (List (String × FilterVal))) (c : Contact) : Bool :=
  match f with
  | some kvs => if kvs = [] then true else kvs.all (fun kv => hasKV c.custom_fields kv.1 kv.2)
  | none => true

/-- The 'contact_lists' criterion of a segment filter:
contact_list__id__in over the listed ids. -/
def contactListsCriterion (f : Option (List Nat)) (c : Contact) : Bool :=
  match f with
  | some ids =>
      if ids = [] then true
      else match c.contact_list with
        | some l => decide (l ∈ ids)
        | none => false
  | none => true

/-- Whether a contact satisfies one segment's filters: the conjunction
of the four criteria, each skipped when its stored value is falsy. -/
def segmentMatch (seg : SegmentFilters) (c : Contact) : Bool :=
  subscribedCriterion seg.subscribed c &&
  companyCriterion seg.company c &&
  customFieldsCriterion seg.custom_fields c &&
  contactListsCriterion seg.contact_lists c

/-! ## Recipient resolution (process_campaign_task, lines 367-394) -/

/-- The base queryset filter: subscribed contacts with a non-empty
email (filter(subscribed=True, email__isnull=False).exclude(email='')). -/
def baseEligible (c : Contact) : Bool :=
  c.subscribed && !(c.email == "")

/-- contact_list__in over the campaign's linked list ids. -/
def inLinkedLists (lists : List Nat) (c : Contact) : Bool :=
  match c.contact_list with
  | some l => decide (l ∈ lists)
  | none => false

/-- The combined_ids set: ids of every contact in the database matching
at least one of the campaign's segments (each segment queryset starts
from Contact.objects.all()). -/
def combinedSegIds (db : List Contact) (segs : List SegmentFilters) : List Nat :=
  (db.filter (fun c => segs.any (fun s => segmentMatch s c))).map Contact.id

/-- Helper for distinct(): keep the first row per contact id. -/
def dedupByIdAux (seen : List Nat) : List Contact → List Contact
  | [] => []
  | c :: rest =>
      if c.id ∈ seen then dedupByIdAux seen rest
      else c :: dedupByIdAux (c.id :: seen) rest

/-- The queryset's .distinct(): one row per contact id. -/
def dedupById (l : List Contact) : List Contact :=
  dedupByIdAux [] l

/-- The Recipient Resolver of process_campaign_task: base filter, then
(when the campaign has lists) restriction to members of the linked
lists, then (when the campaign has segments) restriction to the
combined segment-id set, then distinct(). -/
def resolveRecipients (db : List Contact) (camp : Campaign) : List Contact :=
  let base := db.filter baseEligible
  let afterLists :=
    if camp.contact_lists = [] then base
    else base.filter (inLinkedLists camp.contact_lists)
  let afterSegs :=
    if camp.segments = [] then afterLists
    else afterLists.filter (fun c => decide (c.id ∈ combinedSegIds db camp.segments))
  dedupById afterSegs

/-! ## Completion tracker (check_campaign_completion, lines 240-344) -/

/-- check_campaign_completion: under the row lock, a no-op unless the
campaign is 'sending'; finalizes when successfully_sent +
failed_to_send has reached total_recipients > 0 (status failed when
any failure, else sent), or when total_recipients is 0. -/
def check_campaign_completion (camp : Campaign) (now : Nat) : Campaign :=
  if camp.status ≠ .sending then camp
  else
    if camp.total_recipients ≤ camp.successfully_sent + camp.failed_to_send ∧
       0 < camp.total_recipients then
      { camp with
          sent_at := some now,
          status := if 0 < camp.failed_to_send then .failed else .sent }
    else if camp.total_recipients = 0 then
      { camp with sent_at := some now, status := .failed }
    else camp

/-! ## Dispatcher (process_campaign_task, lines 347-411) -/

/-- The statuses process_campaign_task accepts. -/
def dispatchableStatuses : List CStatus :=
  [.draft, .scheduled, .queued, .retrying, .failed, .sending]

/-- Result of one process_campaign_task invocation: the campaign row it
leaves behind, the contact ids of the enqueued send_single_email_task
jobs, and whether the campaign was accepted for processing. -/
structure DispatchResult where
  campaign : Campaign
  enqueued : List Nat
  accepted : Bool
deriving DecidableEq

/-- process_campaign_task: reject statuses outside the dispatchable
set; otherwise reset the counters and sent_at, mark sending, resolve
recipients, record total_recipients, and either finalize as failed
(zero recipients) or enqueue one send job per resolved contact. -/
def process_campaign_task (db : List Contact) (camp : Campaign) (now : Nat) : DispatchResult :=
  if ¬ (camp.status ∈ dispatchableStatuses) then
    { campaign := camp, enqueued := [], accepted := false }
  else
    let c1 : Campaign :=
      { camp with
          status := .sending, successfully_sent := 0,
          failed_to_send := 0, sent_at := none }
    let recips := resolveRecipients db c1
    let c2 : Campaign := { c1 with total_recipients := recips.length }
    if recips.length = 0 then
      { campaign := { c2 with status := .failed, sent_at := some now },
        enqueued := [], accepted := true }
    else
      { campaign := c2, enqueued := recips.map Contact.id, accepted := true }

/-- A draft campaign with no lists and no segments, used in concrete
instances below. -/
def campEmptyDraft : Campaign where
  id := 1
  status := .draft
  contact_lists := []
  segments := []
  total_recipients := 0
  successfully_sent := 0
  failed_to_send := 0
  sent_at := none

/-! ## Send worker (send_single_email_task, lines 21-238) -/

/-- Key of the CampaignSendLog upsert in the finally block:
(campaign_id, contact_id, email_address). -/
structure LogKey where
  campaign_id : Nat
  contact_id : Nat
  email_address : String
deriving DecidableEq

/-- The mutable columns of a CampaignSendLog row written by the send
worker. -/
structure LogEntry where
  status : String
  message_id : Option String
  error_message : Option String
deriving DecidableEq

/-- CampaignSendLog.objects.update_or_create keyed by
(campaign_id, contact_id, email_address): update the existing row for
the key, or append a new one. -/
def upsertLog : List (LogKey × LogEntry) → LogKey → LogEntry → List (LogKey × LogEntry)
  | [], k, e => [(k, e)]
  | p :: rest, k, e =>
      if p.1 = k then (k, e) :: rest else p :: upsertLog rest k e

/-- Lookup of the log row stored under a key. -/
def lookupLog : List (LogKey × LogEntry) → LogKey → Option LogEntry
  | [], _ => none
  | p :: rest, k => if p.1 = k then some p.2 else lookupLog rest k

/-- Number of log rows recorded for one (campaign, contact) pair. -/
def countPair (logs : List (LogKey × LogEntry)) (campId contactId : Nat) : Nat :=
  (logs.filter (fun p =>
    decide (p.1.campaign_id = campId ∧ p.1.contact_id = contactId))).length

/-- The database state one send worker invocation reads and writes:
the campaign row and the send-log table. -/
structure WorkerState where
  campaign : Campaign
  logs : List (LogKey × LogEntry)
deriving DecidableEq

/-- What one send_single_email_task invocation decides before touching
the database: the two counter increments, the log row it will upsert
(contact id and email snapshot plus the entry), whether a task retry
was requested, and the subject handed to send_mail when a send was
attempted. -/
structure WorkerOutcome where
  dSuccess : Nat
  dFailed : Nat
  log_contact_id : Nat
  log_email : String
  entry : LogEntry
  retryRequested : Bool
  sentSubject : Option String
deriving DecidableEq

/-- Retry budget declared on the task
(@shared_task(bind=True, max_retries=3, ...)). -/
def send_single_email_max_retries : Nat := 3

/-- Retry delay declared on the task (default_retry_delay=5 * 60
seconds). -/
def send_single_email_default_retry_delay : Nat := 5 * 60

/-- Subject rendering of send_single_email_task: a TemplateSyntaxError
in the subject falls back to the raw, unrendered subject. -/
def renderOrRaw (t : TmplStr) : String :=
  match t.out with
  | .rendered s => s
  | .renderError => t.raw

/-- Outcome of the Contact.DoesNotExist path (lines 174-178): no
counter update; the finally block still logs, with the email snapshot
falling back to "unknown_email". -/
def contactMissingOutcome (contact_id : Nat) : WorkerOutcome where
  dSuccess := 0
  dFailed := 0
  log_contact_id := contact_id
  log_email := "unknown_email"
  entry := { status := "failed", message_id := none,
             error_message := some "Contact ID not found." }
  retryRequested := false
  sentSubject := none

/-- Outcome of a configuration failure (no sender email, line 39, or
no template, line 45): failed_to_send is incremented there and a
second time at line 187 when the re-raised ValueError reaches the
generic handler, for +2 in total. -/
def configFailOutcome (contact : Contact) (msg : String) : WorkerOutcome where
  dSuccess := 0
  dFailed := 2
  log_contact_id := contact.id
  log_email := contact.email
  entry := { status := "failed", message_id := none, error_message := some msg }
  retryRequested := false
  sentSubject := none

/-- Outcome of the unsubscribed-contact path (lines 48-53): a skipped
log row and no counter update. -/
def skipOutcome (contact : Contact) : WorkerOutcome where
  dSuccess := 0
  dFailed := 0
  log_contact_id := contact.id
  log_email := contact.email
  entry := { status := "skipped", message_id := none,
             error_message := some "Contact unsubscribed." }
  retryRequested := false
  sentSubject := none

/-- Outcome of a TemplateSyntaxError in the HTML body or footer
(lines 154-158): failed_to_send is incremented at line 157 and again
at line 187 when the re-raised error reaches the generic handler, for
+2 in total. -/
def bodyErrorOutcome (contact : Contact) : WorkerOutcome where
  dSuccess := 0
  dFailed := 2
  log_contact_id := contact.id
  log_email := contact.email
  entry := { status := "failed", message_id := none,
             error_message := some "Template syntax error in HTML body/footer" }
  retryRequested := false
  sentSubject := none

/-- Outcome of a successful send_mail call (lines 160-172). -/
def successOutcome (contact : Contact) (subj : String) : WorkerOutcome where
  dSuccess := 1
  dFailed := 0
  log_contact_id := contact.id
  log_email := contact.email
  entry := { status := "success", message_id := some "N/A_django-ses",
             error_message := none }
  retryRequested := false
  sentSubject := some subj

/-- Outcome of a send_mail failure: only the generic handler at lines
183-190 runs (failed_to_send +1); the self.retry call is commented
out, so no retry is requested. -/
def sendFailOutcome (contact : Contact) (subj : String) : WorkerOutcome where
  dSuccess := 0
  dFailed := 1
  log_contact_id := contact.id
  log_email := contact.email
  entry := { status := "failed", message_id := none,
             error_message := some "Unexpected task error: send_mail failed" }
  retryRequested := false
  sentSubject := some subj

/-- The branch structure of send_single_email_task for one invocation,
in the source's order: contact lookup, sender-email configuration
check, template presence check, subscription check, subject render
(with raw fallback), body and footer render (hard failure), then the
send_mail call. -/
def workerOutcome (lookup : Option Contact) (appSettings : Option AppSettings)
    (tmpl : Option EmailTemplate) (transportOk : Bool) (contact_id : Nat) :
    WorkerOutcome :=
  match lookup with
  | none => contactMissingOutcome contact_id
  | some contact =>
      match appSettings with
      | none =>
          configFailOutcome contact "Error: Sender email not configured in AppSettings."
      | some s =>
          if s.sender_email = "" then
            configFailOutcome contact "Error: Sender email not configured in AppSettings."
          else
            match tmpl with
            | none => configFailOutcome contact "Error: Campaign has no email template."
            | some t =>
                if contact.subscribed then
                  match t.html_content.out with
                  | .renderError => bodyErrorOutcome contact
                  | .rendered _ =>
                      match t.footer_html.out with
                      | .renderError => bodyErrorOutcome contact
                      | .rendered _ =>
                          if transportOk then
                            successOutcome contact (renderOrRaw t.subject)
                          else
                            sendFailOutcome contact (renderOrRaw t.subject)
                else
                  skipOutcome contact

/-- What the task reports back about one invocation. -/
structure TaskRes where
  logStatus : String
  retryRequested : Bool
  sentSubject : Option String
deriving DecidableEq

/-- send_single_email_task: decide the outcome, apply the atomic
counter increments to the campaign row, upsert the log row in the
finally block, and run check_campaign_completion on the updated
campaign (also in the finally block). -/
def send_single_email_task (st : WorkerState) (lookup : Option Contact)
    (appSettings : Option AppSettings) (tmpl : Option EmailTemplate)
    (transportOk : Bool) (contact_id : Nat) (now : Nat) :
    WorkerState × TaskRes :=
  let o := workerOutcome lookup appSettings tmpl transportOk contact_id
  let campCounted : Campaign :=
    { st.campaign with
        successfully_sent := st.campaign.successfully_sent + o.dSuccess,
        failed_to_send := st.campaign.failed_to_send + o.dFailed }
  let key : LogKey :=
    { campaign_id := st.campaign.id, contact_id := o.log_contact_id,
      email_address := o.log_email }
  ({ campaign := check_campaign_completion campCounted now,
     logs := upsertLog st.logs key o.entry },
   { logStatus := o.entry.status, retryRequested := o.retryRequested,
     sentSubject := o.sentSubject })

/-- One queued send-worker job as seen by the task queue: the contact
lookup result, the settings row, the campaign's template, the
transport outcome, the requested contact id, and the clock value at
completion time. -/
structure Invoc where
  lookup : Option Contact
  appSettings : Option AppSettings
  tmpl : Option EmailTemplate
  transportOk : Bool
  contact_id : Nat
  now : Nat

/-- Run a list of send-worker invocations in sequence against the
shared campaign row and log table. -/
def runWorkers (st : WorkerState) : List Invoc → WorkerState
  | [] => st
  | i :: rest =>
      runWorkers
        (send_single_email_task st i.lookup i.appSettings i.tmpl
          i.transportOk i.contact_id i.now).1 rest

/-! ## The spec's reading of the resolver, for comparison -/

/-- Modelled from the spec: per-contact eligibility as the claim about
the Recipient Resolver words it, with list-membership results and
segment-match results unioned (member of any linked ContactList OR
matching any linked Segment's filter); with neither lists nor segments
this gives false, matching the spec's "the eligible set is empty". -/
def specEligible (camp : Campaign) (c : Contact) : Bool :=
  baseEligible c &&
  (inLinkedLists camp.contact_lists c ||
   camp.segments.any (fun s => segmentMatch s c))

/-! ## Concrete fixtures -/

/-- A configured settings row. -/
def settingsConfigured : AppSettings where
  sender_email := "send@example.com"
  company_name := "Co"
  company_address := ""
  site_url := ""

/-- A template whose subject, body and footer all render. -/
def tmplAllOk : EmailTemplate where
  name := "T"
  subject := { raw := "Hi", out := .rendered "Hi" }
  html_content := { raw := "<p>x</p>", out := .rendered "<p>x</p>" }
  footer_html := { raw := "f", out := .rendered "f" }

/-- A subscribed contact in contact list 1. -/
def cSubA : Contact where
  id := 10
  contact_list := some 1
  email := "a@example.com"
  first_name := none
  last_name := none
  company := none
  job_title := none
  custom_fields := none
  subscribed := true

/-- An unsubscribed contact in contact list 1. -/
def cUnsubB : Contact where
  id := 11
  contact_list := some 1
  email := "b@example.com"
  first_name := none
  last_name := none
  company := none
  job_title := none
  custom_fields := none
  subscribed := false

/-- A segment filter cSubA does not match (company substring "zzz"
against a contact with no company). -/
def segNoMatch : SegmentFilters where
  subscribed := none
  company := some "zzz"
  custom_fields := none
  contact_lists := none

/-- A campaign linked to contact list 1 and to segNoMatch. -/
def campListAndSeg : Campaign where
  id := 2
  status := .draft
  contact_lists := [1]
  segments := [segNoMatch]
  total_recipients := 0
  successfully_sent := 0
  failed_to_send := 0
  sent_at := none

/-- A campaign in the middle of sending, one recipient outstanding. -/
def campSendingOne : Campaign where
  id := 3
  status := .sending
  contact_lists := [1]
  segments := []
  total_recipients := 1
  successfully_sent := 0
  failed_to_send := 0
  sent_at := none

/-- A campaign in the middle of sending, two recipients outstanding. -/
def campSendingTwo : Campaign where
  id := 4
  status := .sending
  contact_lists := [1]
  segments := []
  total_recipients := 2
  successfully_sent := 0
  failed_to_send := 0
  sent_at := none

/-- A template whose subject has a syntax error but whose body and
footer render. -/
def tmplSubjErr : EmailTemplate where
  name := "S"
  subject := { raw := "Hello broken-tag", out := .renderError }
  html_content := { raw := "<p>x</p>", out := .rendered "<p>B</p>" }
  footer_html := { raw := "f", out := .rendered "F" }

/-- A template whose body has a syntax error. -/
def tmplBodyErr : EmailTemplate where
  name := "B"
  subject := { raw := "Hi", out := .rendered "Hi" }
  html_content := { raw := "broken-tag", out := .renderError }
  footer_html := { raw := "f", out := .rendered "F" }

/-- Worker state over campSendingTwo with an empty log table. -/
def stTwo : WorkerState where
  campaign := campSendingTwo
  logs := []

/-- A segment whose stored subscribed filter is the JSON boolean true
(truthy, but not the string 'true'). -/
def segBoolTrue : SegmentFilters where
  subscribed := some (.vbool true)
  company := none
  custom_fields := none
  contact_lists := none

/-! ## Helper lemmas -/

theorem mem_dedupByIdAux {d : Contact} :
    ∀ (seen : List Nat) (l : List Contact), d ∈ dedupByIdAux seen l → d ∈ l := by
  intro seen l
  induction l generalizing seen with
  | nil => intro h; simp [dedupByIdAux] at h
  | cons c rest ih =>
    intro h
    unfold dedupByIdAux at h
    split at h
    · exact List.mem_cons_of_mem _ (ih _ h)
    · rcases List.mem_cons.mp h with h1 | h2
      · exact h1 ▸ List.mem_cons_self _ _
      · exact List.mem_cons_of_mem _ (ih _ h2)

theorem resolve_subset {db : List Contact} {camp : Campaign} {d : Contact}
    (h : d ∈ resolveRecipients db camp) : d ∈ db ∧ baseEligible d = true := by
  simp only [resolveRecipients, dedupById] at h
  have h1 := mem_dedupByIdAux _ _ h
  by_cases hsg : camp.segments = [] <;> by_cases hl : camp.contact_lists = [] <;>
    simp [hsg, hl, List.mem_filter] at h1 <;> tauto

theorem dedupByIdAux_eq_self :
    ∀ (l : List Contact) (seen : List Nat),
      (l.map Contact.id).Nodup → (∀ c ∈ l, c.id ∉ seen) →
      dedupByIdAux seen l = l := by
  intro l
  induction l with
  | nil => intro seen _ _; rfl
  | cons c rest ih =>
    intro seen hn hd
    simp only [List.map_cons, List.nodup_cons] at hn
    unfold dedupByIdAux
    rw [if_neg (hd c (List.mem_cons_self c rest))]
    congr 1
    refine ih _ hn.2 ?_
    intro d hdm hmem
    rcases List.mem_cons.mp hmem with h1 | h2
    · exact hn.1 (h1 ▸ List.mem_map_of_mem Contact.id hdm)
    · exact hd d (List.mem_cons_of_mem _ hdm) h2

theorem dedupByIdAux_nodup :
    ∀ (l : List Contact) (seen : List Nat),
      ((dedupByIdAux seen l).map Contact.id).Nodup ∧
      (∀ d ∈ dedupByIdAux seen l, d.id ∉ seen) := by
  intro l
  induction l with
  | nil => intro seen; exact ⟨List.nodup_nil, by simp [dedupByIdAux]⟩
  | cons c rest ih =>
    intro seen
    unfold dedupByIdAux
    by_cases hc : c.id ∈ seen
    · rw [if_pos hc]
      exact ih seen
    · rw [if_neg hc]
      obtain ⟨ihn, ihd⟩ := ih (c.id :: seen)
      constructor
      · simp only [List.map_cons, List.nodup_cons]
        refine ⟨?_, ihn⟩
        intro hmem
        rcases List.mem_map.mp hmem with ⟨d, hdm, hid⟩
        exact ihd d hdm (by rw [hid]; exact List.mem_cons_self _ _)
      · intro d hdm
        rcases List.mem_cons.mp hdm with h1 | h2
        · rw [h1]; exact hc
        · intro hmem
          exact ihd d h2 (List.mem_cons_of_mem _ hmem)

theorem dedupById_eq_nil_iff (l : List Contact) : dedupById l = [] ↔ l = [] := by
  cases l with
  | nil => simp [dedupById, dedupByIdAux]
  | cons c rest => simp [dedupById, dedupByIdAux]

theorem resolveRecipients_nodup (db : List Contact) (camp : Campaign) :
    ((resolveRecipients db camp).map Contact.id).Nodup := by
  simp only [resolveRecipients, dedupById]
  exact (dedupByIdAux_nodup _ _).1

theorem filter_map_id_nodup (db : List Contact) (hn : (db.map Contact.id).Nodup)
    (p : Contact → Bool) : ((db.filter p).map Contact.id).Nodup :=
  List.Nodup.sublist (List.Sublist.map Contact.id (List.filter_sublist db)) hn

theorem mem_combinedSegIds (db : List Contact) (segs : List SegmentFilters)
    (hn : (db.map Contact.id).Nodup) (c : Contact) (hc : c ∈ db) :
    c.id ∈ combinedSegIds db segs ↔ (segs.any fun s => segmentMatch s c) = true := by
  unfold combinedSegIds
  simp only [List.mem_map, List.mem_filter]
  constructor
  · rintro ⟨d, ⟨hdm, hmatch⟩, hid⟩
    have hdc : d = c := List.inj_on_of_nodup_map hn hdm hc hid
    rw [hdc] at hmatch
    exact hmatch
  · intro h
    exact ⟨c, ⟨hc, h⟩, rfl⟩

theorem mem_resolveRecipients (db : List Contact) (camp : Campaign)
    (hn : (db.map Contact.id).Nodup) (c : Contact) :
    c ∈ resolveRecipients db camp ↔
      (c ∈ db ∧ baseEligible c = true ∧
       (camp.contact_lists ≠ [] → inLinkedLists camp.contact_lists c = true) ∧
       (camp.segments ≠ [] →
         (camp.segments.any fun s => segmentMatch s c) = true)) := by
  by_cases hl : camp.contact_lists = [] <;> by_cases hsg : camp.segments = []
  · have hres : resolveRecipients db camp = dedupByIdAux [] (db.filter baseEligible) := by
      simp [resolveRecipients, dedupById, hl, hsg]
    rw [hres, dedupByIdAux_eq_self _ [] (filter_map_id_nodup db hn _) (by simp)]
    simp [List.mem_filter, hl, hsg, and_assoc]
  · have hres : resolveRecipients db camp =
        dedupByIdAux []
          ((db.filter baseEligible).filter
            (fun d => decide (d.id ∈ combinedSegIds db camp.segments))) := by
      simp [resolveRecipients, dedupById, hl, hsg]
    rw [hres, dedupByIdAux_eq_self _ []
      (filter_map_id_nodup _ (filter_map_id_nodup db hn _) _) (by simp)]
    constructor
    · intro h
      rw [List.mem_filter] at h
      obtain ⟨hb, hid⟩ := h
      rw [List.mem_filter] at hb
      refine ⟨hb.1, hb.2, fun hk => absurd hl hk, fun _ => ?_⟩
      exact (mem_combinedSegIds db _ hn c hb.1).mp (by simpa using hid)
    · rintro ⟨hdb, hbase, _, hany⟩
      rw [List.mem_filter]
      refine ⟨List.mem_filter.mpr ⟨hdb, hbase⟩, ?_⟩
      simpa using (mem_combinedSegIds db _ hn c hdb).mpr (hany hsg)
  · have hres : resolveRecipients db camp =
        dedupByIdAux []
          ((db.filter baseEligible).filter (inLinkedLists camp.contact_lists)) := by
      simp [resolveRecipients, dedupById, hl, hsg]
    rw [hres, dedupByIdAux_eq_self _ []
      (filter_map_id_nodup _ (filter_map_id_nodup db hn _) _) (by simp)]
    constructor
    · intro h
      rw [List.mem_filter] at h
      obtain ⟨hb, hin⟩ := h
      rw [List.mem_filter] at hb
      exact ⟨hb.1, hb.2, fun _ => hin, fun hk => absurd hsg hk⟩
    · rintro ⟨hdb, hbase, hin, _⟩
      rw [List.mem_filter]
      exact ⟨List.mem_filter.mpr ⟨hdb, hbase⟩, hin hl⟩
  · have hres : resolveRecipients db camp =
        dedupByIdAux []
          (((db.filter baseEligible).filter (inLinkedLists camp.contact_lists)).filter
            (fun d => decide (d.id ∈ combinedSegIds db camp.segments))) := by
      simp [resolveRecipients, dedupById, hl, hsg]
    rw [hres, dedupByIdAux_eq_self _ []
      (filter_map_id_nodup _
        (filter_map_id_nodup _ (filter_map_id_nodup db hn _) _) _) (by simp)]
    constructor
    · intro h
      rw [List.mem_filter] at h
      obtain ⟨hb, hid⟩ := h
      rw [List.mem_filter] at hb
      obtain ⟨hbb, hin⟩ := hb
      rw [List.mem_filter] at hbb
      refine ⟨hbb.1, hbb.2, fun _ => hin, fun _ => ?_⟩
      exact (mem_combinedSegIds db _ hn c hbb.1).mp (by simpa using hid)
    · rintro ⟨hdb, hbase, hin, hany⟩
      rw [List.mem_filter]
      refine ⟨List.mem_filter.mpr ⟨List.mem_filter.mpr ⟨hdb, hbase⟩, hin hl⟩, ?_⟩
      simpa using (mem_combinedSegIds db _ hn c hdb).mpr (hany hsg)

theorem lookupLog_upsert (logs : List (LogKey × LogEntry)) (k : LogKey) (e : LogEntry) :
    lookupLog (upsertLog logs k e) k = some e := by
  induction logs with
  | nil => simp [upsertLog, lookupLog]
  | cons p rest ih =>
    unfold upsertLog
    by_cases h : p.1 = k
    · simp [h, lookupLog]
    · simp [h, lookupLog, ih]

theorem countPair_eq_countP (logs : List (LogKey × LogEntry)) (a bId : Nat) :
    countPair logs a bId =
      logs.countP (fun p => decide (p.1.campaign_id = a ∧ p.1.contact_id = bId)) := by
  unfold countPair
  rw [List.countP_eq_length_filter]

theorem lookupLog_none_of_countPair_zero (k : LogKey) :
    ∀ logs, countPair logs k.campaign_id k.contact_id = 0 → lookupLog logs k = none := by
  intro logs
  induction logs with
  | nil => intro _; rfl
  | cons p rest ih =>
    intro h
    rw [countPair_eq_countP, List.countP_cons] at h
    by_cases hp : p.1.campaign_id = k.campaign_id ∧ p.1.contact_id = k.contact_id
    · rw [if_pos (by simp [hp])] at h
      omega
    · rw [if_neg (by simp [hp])] at h
      unfold lookupLog
      rw [if_neg ?hne]
      case hne =>
        intro he
        exact hp (by rw [he]; exact ⟨rfl, rfl⟩)
      refine ih ?_
      rw [countPair_eq_countP]
      omega

theorem countPair_upsert_new (k : LogKey) (e : LogEntry) (a bId : Nat) :
    ∀ logs, lookupLog logs k = none →
    countPair (upsertLog logs k e) a bId =
      countPair logs a bId +
        (if k.campaign_id = a ∧ k.contact_id = bId then 1 else 0) := by
  intro logs
  induction logs with
  | nil =>
    intro _
    by_cases hk : k.campaign_id = a ∧ k.contact_id = bId <;>
      simp [upsertLog, countPair, List.filter_cons, hk]
  | cons p rest ih =>
    intro h
    unfold lookupLog at h
    split at h
    · simp at h
    · rename_i hne
      unfold upsertLog
      rw [if_neg hne]
      have ih2 := ih h
      rw [countPair_eq_countP] at ih2 ⊢
      rw [countPair_eq_countP] at ih2 ⊢
      rw [List.countP_cons, List.countP_cons, ih2]
      omega

theorem countPair_upsert_old (k : LogKey) (e : LogEntry) (a bId : Nat) :
    ∀ logs, lookupLog logs k ≠ none →
    countPair (upsertLog logs k e) a bId = countPair logs a bId := by
  intro logs
  induction logs with
  | nil => intro h; exact absurd rfl h
  | cons p rest ih =>
    intro h
    unfold upsertLog
    by_cases hp : p.1 = k
    · rw [if_pos hp]
      rw [countPair_eq_countP, countPair_eq_countP,
        List.countP_cons, List.countP_cons, hp]
    · rw [if_neg hp]
      unfold lookupLog at h
      rw [if_neg hp] at h
      have ih2 := ih h
      rw [countPair_eq_countP] at ih2 ⊢
      rw [countPair_eq_countP] at ih2 ⊢
      rw [List.countP_cons, List.countP_cons, ih2]

theorem workerOutcome_log_fields (c : Contact) (aset : Option AppSettings)
    (tmpl : Option EmailTemplate) (tr : Bool) (cid : Nat) :
    (workerOutcome (some c) aset tmpl tr cid).log_contact_id = c.id ∧
    (workerOutcome (some c) aset tmpl tr cid).log_email = c.email := by
  cases aset with
  | none => simp [workerOutcome, configFailOutcome]
  | some s =>
    by_cases hs : s.sender_email = ""
    · simp [workerOutcome, hs, configFailOutcome]
    · cases tmpl with
      | none => simp [workerOutcome, hs, configFailOutcome]
      | some t =>
        by_cases hc : c.subscribed = true
        · cases hb : t.html_content.out with
          | renderError => simp [workerOutcome, hs, hc, hb, bodyErrorOutcome]
          | rendered bb =>
            cases hf : t.footer_html.out with
            | renderError => simp [workerOutcome, hs, hc, hb, hf, bodyErrorOutcome]
            | rendered ff =>
              cases tr <;>
                simp [workerOutcome, hs, hc, hb, hf, successOutcome, sendFailOutcome]
        · simp [workerOutcome, hs, hc, skipOutcome]

theorem workerOutcome_skip (c : Contact) (s : AppSettings) (t : EmailTemplate)
    (tr : Bool) (cid : Nat) (hs : s.sender_email ≠ "") (hc : c.subscribed = false) :
    workerOutcome (some c) (some s) (some t) tr cid = skipOutcome c := by
  simp [workerOutcome, hs, hc]

theorem workerOutcome_success (c : Contact) (s : AppSettings) (t : EmailTemplate)
    (cid : Nat) (b f : String) (hs : s.sender_email ≠ "") (hc : c.subscribed = true)
    (hb : t.html_content.out = RenderOut.rendered b)
    (hf : t.footer_html.out = RenderOut.rendered f) :
    workerOutcome (some c) (some s) (some t) true cid =
      successOutcome c (renderOrRaw t.subject) := by
  simp [workerOutcome, hs, hc, hb, hf]

theorem workerOutcome_sendFail (c : Contact) (s : AppSettings) (t : EmailTemplate)
    (cid : Nat) (b f : String) (hs : s.sender_email ≠ "") (hc : c.subscribed = true)
    (hb : t.html_content.out = RenderOut.rendered b)
    (hf : t.footer_html.out = RenderOut.rendered f) :
    workerOutcome (some c) (some s) (some t) false cid =
      sendFailOutcome c (renderOrRaw t.subject) := by
  simp [workerOutcome, hs, hc, hb, hf]

theorem workerOutcome_bodyErr (c : Contact) (s : AppSettings) (t : EmailTemplate)
    (tr : Bool) (cid : Nat) (hs : s.sender_email ≠ "") (hc : c.subscribed = true)
    (hb : t.html_content.out = RenderOut.renderError) :
    workerOutcome (some c) (some s) (some t) tr cid = bodyErrorOutcome c := by
  simp [workerOutcome, hs, hc, hb]

theorem workerOutcome_footErr (c : Contact) (s : AppSettings) (t : EmailTemplate)
    (tr : Bool) (cid : Nat) (b : String) (hs : s.sender_email ≠ "")
    (hc : c.subscribed = true) (hb : t.html_content.out = RenderOut.rendered b)
    (hf : t.footer_html.out = RenderOut.renderError) :
    workerOutcome (some c) (some s) (some t) tr cid = bodyErrorOutcome c := by
  simp [workerOutcome, hs, hc, hb, hf]

theorem send_task_eq (st : WorkerState) (lookup : Option Contact)
    (appSettings : Option AppSettings) (tmpl : Option EmailTemplate)
    (transportOk : Bool) (contact_id now : Nat) :
    send_single_email_task st lookup appSettings tmpl transportOk contact_id now =
      ({ campaign := check_campaign_completion
           { st.campaign with
               successfully_sent := st.campaign.successfully_sent +
                 (workerOutcome lookup appSettings tmpl transportOk contact_id).dSuccess,
               failed_to_send := st.campaign.failed_to_send +
                 (workerOutcome lookup appSettings tmpl transportOk contact_id).dFailed } now,
         logs := upsertLog st.logs
           { campaign_id := st.campaign.id,
             contact_id :=
               (workerOutcome lookup appSettings tmpl transportOk contact_id).log_contact_id,
             email_address :=
               (workerOutcome lookup appSettings tmpl transportOk contact_id).log_email }
           (workerOutcome lookup appSettings tmpl transportOk contact_id).entry },
       { logStatus :=
           (workerOutcome lookup appSettings tmpl transportOk contact_id).entry.status,
         retryRequested :=
           (workerOutcome lookup appSettings tmpl transportOk contact_id).retryRequested,
         sentSubject :=
           (workerOutcome lookup appSettings tmpl transportOk contact_id).sentSubject }) :=
  rfl

theorem resolveRecipients_reset (db : List Contact) (camp : Campaign) :
    resolveRecipients db
      { camp with
          status := CStatus.sending, successfully_sent := 0,
          failed_to_send := 0, sent_at := none } =
    resolveRecipients db camp := rfl

theorem check_campaign_completion_id (camp : Campaign) (now : Nat) :
    (check_campaign_completion camp now).id = camp.id := by
  unfold check_campaign_completion
  split
  · rfl
  · split
    · rfl
    · split <;> rfl

theorem check_campaign_completion_ss (camp : Campaign) (now : Nat) :
    (check_campaign_completion camp now).successfully_sent = camp.successfully_sent := by
  unfold check_campaign_completion
  split
  · rfl
  · split
    · rfl
    · split <;> rfl

theorem check_campaign_completion_fs (camp : Campaign) (now : Nat) :
    (check_campaign_completion camp now).failed_to_send = camp.failed_to_send := by
  unfold check_campaign_completion
  split
  · rfl
  · split
    · rfl
    · split <;> rfl

/-! ## Claim theorems -/

/-- Claim C4: process_campaign_task is a no-op returning an
informational result when the campaign's status is outside
{draft, scheduled, queued, retrying, failed, sending}; otherwise it
resets both counters to 0, clears sent_at, sets status = sending, sets
total_recipients to the resolved recipient count, and either finalizes
as failed with sent_at = now and no jobs (count 0) or enqueues exactly
one send job per resolved contact. -/
theorem C4_dispatcher (db : List Contact) (camp : Campaign) (now : Nat) :
    (camp.status ∉ dispatchableStatuses →
      process_campaign_task db camp now =
        { campaign := camp, enqueued := [], accepted := false }) ∧
    (camp.status ∈ dispatchableStatuses →
      (process_campaign_task db camp now).accepted = true ∧
      (process_campaign_task db camp now).campaign.successfully_sent = 0 ∧
      (process_campaign_task db camp now).campaign.failed_to_send = 0 ∧
      (process_campaign_task db camp now).campaign.total_recipients =
        (resolveRecipients db camp).length ∧
      ((resolveRecipients db camp).length = 0 →
        (process_campaign_task db camp now).campaign.status = CStatus.failed ∧
        (process_campaign_task db camp now).campaign.sent_at = some now ∧
        (process_campaign_task db camp now).enqueued = []) ∧
      ((resolveRecipients db camp).length ≠ 0 →
        (process_campaign_task db camp now).campaign.status = CStatus.sending ∧
        (process_campaign_task db camp now).campaign.sent_at = none ∧
        (process_campaign_task db camp now).enqueued =
          (resolveRecipients db camp).map Contact.id)) := by
  constructor
  · intro h
    unfold process_campaign_task
    rw [if_pos h]
  · intro h
    unfold process_campaign_task
    rw [if_neg (not_not_intro h)]
    simp only [resolveRecipients_reset]
    by_cases hn : (resolveRecipients db camp).length = 0
    · simp [hn]
    · simp [hn]

/-- Witness for C4 at a concrete accepted input: dispatching a draft
campaign over a one-contact database enqueues that contact and sets
the dispatch fields. -/
theorem C4_dispatcher_witness :
    (process_campaign_task [cSubA] campEmptyDraft 7).accepted = true ∧
    (process_campaign_task [cSubA] campEmptyDraft 7).campaign.status = CStatus.sending ∧
    (process_campaign_task [cSubA] campEmptyDraft 7).enqueued =
      (resolveRecipients [cSubA] campEmptyDraft).map Contact.id := by
  have h := C4_dispatcher [cSubA] campEmptyDraft 7
  have h2 := h.2 (by decide)
  exact ⟨h2.1, (h2.2.2.2.2.2 (by decide)).1, (h2.2.2.2.2.2 (by decide)).2.2⟩

/-- Claim C5: check_campaign_completion is a no-op unless the campaign
is 'sending'; when it is sending with successfully_sent +
failed_to_send >= total_recipients > 0 it sets sent_at = now and the
status to failed when failed_to_send > 0, else sent; and a further
call on the finalized row is a no-op, so redundant calls finalize at
most once. -/
theorem C5_completion_tracker (camp : Campaign) (now now2 : Nat) :
    (camp.status ≠ CStatus.sending → check_campaign_completion camp now = camp) ∧
    (camp.status = CStatus.sending →
      camp.total_recipients ≤ camp.successfully_sent + camp.failed_to_send →
      0 < camp.total_recipients →
      (check_campaign_completion camp now).sent_at = some now ∧
      (check_campaign_completion camp now).status =
        (if 0 < camp.failed_to_send then CStatus.failed else CStatus.sent) ∧
      check_campaign_completion (check_campaign_completion camp now) now2 =
        check_campaign_completion camp now) := by
  constructor
  · intro h
    unfold check_campaign_completion
    rw [if_pos h]
  · intro h1 h2 h3
    have hns : ¬ (camp.status ≠ CStatus.sending) := by simp [h1]
    unfold check_campaign_completion
    rw [if_neg hns, if_pos ⟨h2, h3⟩]
    refine ⟨rfl, rfl, ?_⟩
    have hfin :
        ({ camp with
            sent_at := some now,
            status := if 0 < camp.failed_to_send then CStatus.failed
                      else CStatus.sent } : Campaign).status ≠
          CStatus.sending := by
      by_cases hf : 0 < camp.failed_to_send <;> simp [hf]
    rw [if_pos hfin]

/-- Claim C1 (code bug, evaluation at the failing input): a sending
campaign with total_recipients = 1 whose single worker invocation ends
in a skip (the contact unsubscribed after dispatch) is never
finalized: after the invocation completes, not counting either
counter, the status is still 'sending', sent_at is unset, and
successfully_sent + failed_to_send = 0 even though total_recipients = 1.
This contradicts the claim (and check_campaign_completion's own
docstring, which says skipped counts as processed). -/
theorem C1_code_bug_eval :
    (runWorkers { campaign := campSendingOne, logs := [] }
      [{ lookup := some cUnsubB, appSettings := some settingsConfigured,
         tmpl := some tmplAllOk, transportOk := true, contact_id := 11,
         now := 5 }]).campaign.status = CStatus.sending ∧
    (runWorkers { campaign := campSendingOne, logs := [] }
      [{ lookup := some cUnsubB, appSettings := some settingsConfigured,
         tmpl := some tmplAllOk, transportOk := true, contact_id := 11,
         now := 5 }]).campaign.sent_at = none ∧
    (runWorkers { campaign := campSendingOne, logs := [] }
      [{ lookup := some cUnsubB, appSettings := some settingsConfigured,
         tmpl := some tmplAllOk, transportOk := true, contact_id := 11,
         now := 5 }]).campaign.successfully_sent +
    (runWorkers { campaign := campSendingOne, logs := [] }
      [{ lookup := some cUnsubB, appSettings := some settingsConfigured,
         tmpl := some tmplAllOk, transportOk := true, contact_id := 11,
         now := 5 }]).campaign.failed_to_send = 0 ∧
    campSendingOne.total_recipients = 1 := by
  decide

/-- Claim C2 (counterexample): for a campaign linked to one
ContactList and one Segment, a subscribed contact with a non-empty
email that is a member of the linked list but matches no linked
segment is, per the claim, in the union and hence in the resolved set;
the code intersects the list filter with the segment filter and
excludes the contact, so the claimed characterization fails on this
database. -/
theorem C2_counterexample :
    ¬ (∀ c ∈ [cSubA],
        (c ∈ resolveRecipients [cSubA] campListAndSeg ↔
          specEligible campListAndSeg c = true)) := by
  decide

/-- Claim C3 (counterexample): with one subscribed contact in the
database, a campaign linked to no lists and no segments resolves to
that contact (not the empty set), and dispatching it sets status
'sending' with total_recipients = 1 and enqueues one job, contradicting
every conjunct of the claim. -/
theorem C3_counterexample :
    ¬ (resolveRecipients [cSubA] campEmptyDraft = [] ∧
       (process_campaign_task [cSubA] campEmptyDraft 7).campaign.status = CStatus.failed ∧
       (process_campaign_task [cSubA] campEmptyDraft 7).campaign.total_recipients = 0 ∧
       (process_campaign_task [cSubA] campEmptyDraft 7).enqueued = []) := by
  decide

/-- Claim C8 (counterexample): on the first mail-transport error the
claim requires a retry to be requested with the recipient not yet
counted as failed; the code requests no retry and immediately
increments failed_to_send, so the claim fails at this input. -/
theorem C8_counterexample :
    ¬ ((send_single_email_task { campaign := campSendingTwo, logs := [] }
          (some cSubA) (some settingsConfigured) (some tmplAllOk)
          false 10 9).2.retryRequested = true ∧
       (send_single_email_task { campaign := campSendingTwo, logs := [] }
          (some cSubA) (some settingsConfigured) (some tmplAllOk)
          false 10 9).1.campaign.failed_to_send =
         campSendingTwo.failed_to_send) := by
  decide

/-- Witness for C5 at a concrete input: a sending campaign with one
recipient and one success finalizes as sent with sent_at set. -/
theorem C5_completion_tracker_witness :
    (check_campaign_completion { campSendingOne with successfully_sent := 1 } 6).sent_at =
      some 6 ∧
    (check_campaign_completion { campSendingOne with successfully_sent := 1 } 6).status =
      CStatus.sent := by
  have h := (C5_completion_tracker { campSendingOne with successfully_sent := 1 } 6 8).2
    (by decide) (by decide) (by decide)
  refine ⟨h.1, ?_⟩
  rw [h.2.1]
  decide

/-- Claim C6: a TemplateSyntaxError while rendering the subject is
recovered by falling back to the raw, unrendered subject and the send
proceeds (here: succeeds, the subject handed to send_mail being the
raw subject); a TemplateSyntaxError in the HTML body or footer is
terminal for the recipient: no send is attempted, a failed log row is
upserted, and failed_to_send is incremented (by 2: once in the
specific handler and once more when the re-raised error reaches the
generic handler). -/
theorem C6_template_error_handling (st : WorkerState) (c : Contact) (s : AppSettings)
    (t : EmailTemplate) (cid now : Nat) (b f : String)
    (hs : s.sender_email ≠ "") (hc : c.subscribed = true) :
    (t.subject.out = RenderOut.renderError →
      t.html_content.out = RenderOut.rendered b →
      t.footer_html.out = RenderOut.rendered f →
      (send_single_email_task st (some c) (some s) (some t) true cid now).2.logStatus =
        "success" ∧
      (send_single_email_task st (some c) (some s) (some t) true cid now).2.sentSubject =
        some t.subject.raw ∧
      (send_single_email_task st (some c) (some s) (some t)
          true cid now).1.campaign.successfully_sent =
        st.campaign.successfully_sent + 1) ∧
    ((t.html_content.out = RenderOut.renderError ∨
      t.footer_html.out = RenderOut.renderError) →
      ∀ tr : Bool,
      (send_single_email_task st (some c) (some s) (some t) tr cid now).2.logStatus =
        "failed" ∧
      (send_single_email_task st (some c) (some s) (some t) tr cid now).2.sentSubject =
        none ∧
      (send_single_email_task st (some c) (some s) (some t)
          tr cid now).1.campaign.failed_to_send =
        st.campaign.failed_to_send + 2 ∧
      lookupLog (send_single_email_task st (some c) (some s) (some t) tr cid now).1.logs
        { campaign_id := st.campaign.id, contact_id := c.id, email_address := c.email } =
        some { status := "failed", message_id := none,
               error_message := some "Template syntax error in HTML body/footer" }) := by
  constructor
  · intro hsub hb hf
    rw [send_task_eq, workerOutcome_success c s t cid b f hs hc hb hf]
    refine ⟨rfl, ?_, ?_⟩
    · simp [successOutcome, renderOrRaw, hsub]
    · simp [successOutcome, check_campaign_completion_ss]
  · intro herr tr
    have hred : workerOutcome (some c) (some s) (some t) tr cid = bodyErrorOutcome c := by
      rcases herr with hb | hf
      · exact workerOutcome_bodyErr c s t tr cid hs hc hb
      · cases hob : t.html_content.out with
        | renderError => exact workerOutcome_bodyErr c s t tr cid hs hc hob
        | rendered bb => exact workerOutcome_footErr c s t tr cid bb hs hc hob hf
    rw [send_task_eq, hred]
    refine ⟨rfl, rfl, ?_, ?_⟩
    · simp [bodyErrorOutcome, check_campaign_completion_fs]
    · simp only [bodyErrorOutcome]
      exact lookupLog_upsert _ _ _

/-- Witness for C6 at a concrete input: the subject of tmplSubjErr has
a syntax error and the send still succeeds with the raw subject, while
tmplBodyErr produces a failed outcome with failed_to_send + 2. -/
theorem C6_template_error_handling_witness :
    (send_single_email_task stTwo (some cSubA) (some settingsConfigured)
        (some tmplSubjErr) true 10 5).2.logStatus = "success" ∧
    (send_single_email_task stTwo (some cSubA) (some settingsConfigured)
        (some tmplSubjErr) true 10 5).2.sentSubject = some tmplSubjErr.subject.raw ∧
    (send_single_email_task stTwo (some cSubA) (some settingsConfigured)
        (some tmplBodyErr) true 10 5).2.logStatus = "failed" := by
  have h1 := (C6_template_error_handling stTwo cSubA settingsConfigured tmplSubjErr
    10 5 "<p>B</p>" "F" (by decide) (by decide)).1 rfl rfl rfl
  have h2 := (C6_template_error_handling stTwo cSubA settingsConfigured tmplBodyErr
    10 5 "x" "y" (by decide) (by decide)).2 (Or.inl rfl) true
  exact ⟨h1.1, h1.2.1, h2.1⟩

/-- Claim C7: the resolved recipient set contains only subscribed
contacts, and a send-worker invocation that reaches the subscription
check (sender configured, template present) with an unsubscribed
contact upserts a skipped log row and leaves both counters unchanged. -/
theorem C7_unsubscribed_skip (db : List Contact) (camp : Campaign) (st : WorkerState)
    (c : Contact) (s : AppSettings) (t : EmailTemplate) (tr : Bool) (cid now : Nat)
    (hs : s.sender_email ≠ "") (hc : c.subscribed = false) :
    (∀ d ∈ resolveRecipients db camp, d.subscribed = true) ∧
    (send_single_email_task st (some c) (some s) (some t) tr cid now).2.logStatus =
      "skipped" ∧
    (send_single_email_task st (some c) (some s) (some t)
        tr cid now).1.campaign.failed_to_send = st.campaign.failed_to_send ∧
    (send_single_email_task st (some c) (some s) (some t)
        tr cid now).1.campaign.successfully_sent = st.campaign.successfully_sent ∧
    lookupLog (send_single_email_task st (some c) (some s) (some t) tr cid now).1.logs
      { campaign_id := st.campaign.id, contact_id := c.id, email_address := c.email } =
      some { status := "skipped", message_id := none,
             error_message := some "Contact unsubscribed." } := by
  refine ⟨?_, ?_⟩
  · intro d hd
    have hb := (resolve_subset hd).2
    simp [baseEligible] at hb
    exact hb.1
  · rw [send_task_eq, workerOutcome_skip c s t tr cid hs hc]
    refine ⟨rfl, ?_, ?_, ?_⟩
    · simp [skipOutcome, check_campaign_completion_fs]
    · simp [skipOutcome, check_campaign_completion_ss]
    · simp only [skipOutcome]
      exact lookupLog_upsert _ _ _

/-- Witness for C7 at a concrete input: cSubA is resolved (and is
subscribed), and a worker invocation on unsubscribed cUnsubB logs
skipped without touching the counters. -/
theorem C7_unsubscribed_skip_witness :
    cSubA.subscribed = true ∧
    cSubA ∈ resolveRecipients [cSubA] campEmptyDraft ∧
    (send_single_email_task stTwo (some cUnsubB) (some settingsConfigured)
        (some tmplAllOk) true 11 5).2.logStatus = "skipped" ∧
    (send_single_email_task stTwo (some cUnsubB) (some settingsConfigured)
        (some tmplAllOk) true 11 5).1.campaign.failed_to_send =
      stTwo.campaign.failed_to_send := by
  have h := C7_unsubscribed_skip [cSubA] campEmptyDraft stTwo cUnsubB settingsConfigured
    tmplAllOk true 11 5 (by decide) (by decide)
  exact ⟨h.1 cSubA (by decide), by decide, h.2.1, h.2.2.1⟩

/-- Claim C8 (amended): a mail-transport error in the deliver step is
an immediate terminal failure for that recipient — a failed log row is
upserted and failed_to_send is incremented — and no retry is
requested, even though the task is declared with max_retries = 3 and a
five-minute default retry delay (the self.retry call is commented
out). -/
theorem C8_transport_error_terminal (st : WorkerState) (c : Contact) (s : AppSettings)
    (t : EmailTemplate) (cid now : Nat) (b f : String)
    (hs : s.sender_email ≠ "") (hc : c.subscribed = true)
    (hb : t.html_content.out = RenderOut.rendered b)
    (hf : t.footer_html.out = RenderOut.rendered f) :
    (send_single_email_task st (some c) (some s) (some t)
        false cid now).2.retryRequested = false ∧
    (send_single_email_task st (some c) (some s) (some t) false cid now).2.logStatus =
      "failed" ∧
    (send_single_email_task st (some c) (some s) (some t)
        false cid now).1.campaign.failed_to_send = st.campaign.failed_to_send + 1 ∧
    (send_single_email_task st (some c) (some s) (some t)
        false cid now).1.campaign.successfully_sent = st.campaign.successfully_sent ∧
    lookupLog (send_single_email_task st (some c) (some s) (some t) false cid now).1.logs
      { campaign_id := st.campaign.id, contact_id := c.id, email_address := c.email } =
      some { status := "failed", message_id := none,
             error_message := some "Unexpected task error: send_mail failed" } ∧
    send_single_email_max_retries = 3 ∧
    send_single_email_default_retry_delay = 5 * 60 := by
  rw [send_task_eq, workerOutcome_sendFail c s t cid b f hs hc hb hf]
  refine ⟨rfl, rfl, ?_, ?_, ?_, rfl, rfl⟩
  · simp [sendFailOutcome, check_campaign_completion_fs]
  · simp [sendFailOutcome, check_campaign_completion_ss]
  · simp only [sendFailOutcome]
    exact lookupLog_upsert _ _ _

/-- Witness for C8 at a concrete input. -/
theorem C8_transport_error_terminal_witness :
    (send_single_email_task stTwo (some cSubA) (some settingsConfigured)
        (some tmplAllOk) false 10 9).2.retryRequested = false ∧
    (send_single_email_task stTwo (some cSubA) (some settingsConfigured)
        (some tmplAllOk) false 10 9).1.campaign.failed_to_send =
      stTwo.campaign.failed_to_send + 1 := by
  have h := C8_transport_error_terminal stTwo cSubA settingsConfigured tmplAllOk
    10 9 "<p>x</p>" "f" (by decide) (by decide) rfl rfl
  exact ⟨h.1, h.2.2.1⟩

/-- Claim C9: two send-worker invocations for the same
(contact, campaign) pair, starting from a log table holding no row for
that pair, leave exactly one CampaignSendLog row for the pair — keyed
by (campaign, contact, email_address) — and that row holds the outcome
of the most recent invocation (the log write is an upsert, not an
append). -/
theorem C9_log_upsert_once (st : WorkerState) (c : Contact)
    (s1 s2 : Option AppSettings) (t1 t2 : Option EmailTemplate)
    (tr1 tr2 : Bool) (cid1 cid2 n1 n2 : Nat)
    (h0 : countPair st.logs st.campaign.id c.id = 0) :
    countPair (send_single_email_task
        (send_single_email_task st (some c) s1 t1 tr1 cid1 n1).1
        (some c) s2 t2 tr2 cid2 n2).1.logs st.campaign.id c.id = 1 ∧
    lookupLog (send_single_email_task
        (send_single_email_task st (some c) s1 t1 tr1 cid1 n1).1
        (some c) s2 t2 tr2 cid2 n2).1.logs
      { campaign_id := st.campaign.id, contact_id := c.id, email_address := c.email } =
      some (workerOutcome (some c) s2 t2 tr2 cid2).entry := by
  have hlf1 := workerOutcome_log_fields c s1 t1 tr1 cid1
  have hlf2 := workerOutcome_log_fields c s2 t2 tr2 cid2
  simp only [send_task_eq, check_campaign_completion_id, hlf1.1, hlf1.2,
    hlf2.1, hlf2.2]
  have hnone : lookupLog st.logs
      { campaign_id := st.campaign.id, contact_id := c.id,
        email_address := c.email } = none :=
    lookupLog_none_of_countPair_zero _ _ h0
  constructor
  · have h1 := countPair_upsert_new
      { campaign_id := st.campaign.id, contact_id := c.id, email_address := c.email }
      (workerOutcome (some c) s1 t1 tr1 cid1).entry st.campaign.id c.id st.logs hnone
    rw [if_pos ⟨rfl, rfl⟩] at h1
    have h2 := countPair_upsert_old
      { campaign_id := st.campaign.id, contact_id := c.id, email_address := c.email }
      (workerOutcome (some c) s2 t2 tr2 cid2).entry st.campaign.id c.id
      (upsertLog st.logs
        { campaign_id := st.campaign.id, contact_id := c.id, email_address := c.email }
        (workerOutcome (some c) s1 t1 tr1 cid1).entry)
      (by rw [lookupLog_upsert]; exact Option.some_ne_none _)
    rw [h2, h1, h0]
  · exact lookupLog_upsert _ _ _

/-- Witness for C9 at a concrete input: a failed first attempt and a
successful retry leave one log row holding the success outcome. -/
theorem C9_log_upsert_once_witness :
    countPair (send_single_email_task
        (send_single_email_task stTwo (some cSubA) (some settingsConfigured)
          (some tmplAllOk) false 10 1).1
        (some cSubA) (some settingsConfigured) (some tmplAllOk) true 10 2).1.logs
      stTwo.campaign.id cSubA.id = 1 ∧
    lookupLog (send_single_email_task
        (send_single_email_task stTwo (some cSubA) (some settingsConfigured)
          (some tmplAllOk) false 10 1).1
        (some cSubA) (some settingsConfigured) (some tmplAllOk) true 10 2).1.logs
      { campaign_id := stTwo.campaign.id, contact_id := cSubA.id,
        email_address := cSubA.email } =
      some (workerOutcome (some cSubA) (some settingsConfigured) (some tmplAllOk)
        true 10).entry :=
  C9_log_upsert_once stTwo cSubA (some settingsConfigured) (some settingsConfigured)
    (some tmplAllOk) (some tmplAllOk) false true 10 10 1 2 (by decide)

/-- Claim C10: a segment's 'subscribed' criterion filters for
subscribed contacts exactly when the stored value is the string
'true'; any other truthy value makes the segment match only
unsubscribed contacts; a falsy value makes the criterion be ignored
entirely. -/
theorem C10_subscribed_literal (c : Contact) (seg : SegmentFilters) (v : FilterVal) :
    (seg.subscribed = some (FilterVal.vstr "true") →
      segmentMatch seg c = true → c.subscribed = true) ∧
    (seg.subscribed = some v → v.truthy = true → v.isStrTrue = false →
      segmentMatch seg c = true → c.subscribed = false) ∧
    (seg.subscribed = some v → v.truthy = false →
      segmentMatch seg c = segmentMatch { seg with subscribed := none } c) := by
  refine ⟨?_, ?_, ?_⟩
  · intro hseg hm
    simp [segmentMatch, subscribedCriterion, hseg, FilterVal.truthy,
      FilterVal.isStrTrue] at hm
    tauto
  · intro hseg htr hst hm
    simp [segmentMatch, subscribedCriterion, hseg, htr, hst] at hm
    tauto
  · intro hseg htr
    simp [segmentMatch, subscribedCriterion, hseg, htr]

/-- Witness for C10 at a concrete input: a segment storing the JSON
boolean true matches an unsubscribed contact, and that contact is
indeed unsubscribed. -/
theorem C10_subscribed_literal_witness :
    segmentMatch segBoolTrue cUnsubB = true ∧ cUnsubB.subscribed = false := by
  refine ⟨by decide, ?_⟩
  exact (C10_subscribed_literal cUnsubB segBoolTrue (FilterVal.vbool true)).2.1
    rfl rfl rfl (by decide)

/-- Claim C2 (amended): over a database with distinct contact ids, the
resolved recipient set contains exactly the contacts with
subscribed = true and a non-empty email that satisfy the list
criterion (membership in a linked ContactList) whenever lists are
linked AND the segment criterion (matching at least one linked
Segment) whenever segments are linked: segment results are unioned
among themselves, but list results and segment results are
intersected, not unioned; and every contact appears at most once. -/
theorem C2_resolver_characterization (db : List Contact) (camp : Campaign)
    (hn : (db.map Contact.id).Nodup) (c : Contact) :
    (c ∈ resolveRecipients db camp ↔
      (c ∈ db ∧ baseEligible c = true ∧
       (camp.contact_lists ≠ [] → inLinkedLists camp.contact_lists c = true) ∧
       (camp.segments ≠ [] →
         (camp.segments.any fun s => segmentMatch s c) = true))) ∧
    ((resolveRecipients db camp).map Contact.id).Nodup :=
  ⟨mem_resolveRecipients db camp hn c, resolveRecipients_nodup db camp⟩

/-- Witness for C2 at a concrete input: the subscribed contact is
resolved for a campaign with neither lists nor segments, and the
resolved id list has no duplicates. -/
theorem C2_resolver_characterization_witness :
    cSubA ∈ resolveRecipients [cSubA, cUnsubB] campEmptyDraft ∧
    ((resolveRecipients [cSubA, cUnsubB] campEmptyDraft).map Contact.id).Nodup := by
  have h := C2_resolver_characterization [cSubA, cUnsubB] campEmptyDraft (by decide) cSubA
  exact ⟨h.1.mpr (by decide), h.2⟩

/-- Claim C3 (amended): a campaign linked to no ContactLists and no
Segments resolves to all subscribed contacts with a non-empty email in
the database (deduplicated), not to the empty set; dispatching such a
campaign yields status failed with total_recipients = 0, sent_at set,
and no jobs enqueued precisely when the database has no subscribed
contact with a non-empty email, and otherwise marks it sending and
enqueues jobs. (The dispatcher itself writes no send-log rows in
either case.) -/
theorem C3_no_lists_no_segments (db : List Contact) (camp : Campaign) (now : Nat)
    (hl : camp.contact_lists = []) (hsg : camp.segments = [])
    (hd : camp.status ∈ dispatchableStatuses) :
    resolveRecipients db camp = dedupById (db.filter baseEligible) ∧
    (db.filter baseEligible = [] →
      (process_campaign_task db camp now).campaign.status = CStatus.failed ∧
      (process_campaign_task db camp now).campaign.total_recipients = 0 ∧
      (process_campaign_task db camp now).campaign.sent_at = some now ∧
      (process_campaign_task db camp now).enqueued = []) ∧
    (db.filter baseEligible ≠ [] →
      (process_campaign_task db camp now).campaign.status = CStatus.sending ∧
      (process_campaign_task db camp now).enqueued ≠ []) := by
  have hres : resolveRecipients db camp = dedupById (db.filter baseEligible) := by
    simp [resolveRecipients, dedupById, hl, hsg]
  refine ⟨hres, ?_, ?_⟩
  · intro hfe
    have hnil : resolveRecipients db camp = [] := by
      rw [hres, hfe]
      rfl
    unfold process_campaign_task
    rw [if_neg (not_not_intro hd)]
    simp only [resolveRecipients_reset, hnil]
    simp
  · intro hne
    have hnn : resolveRecipients db camp ≠ [] := by
      rw [hres]
      intro hcon
      exact hne ((dedupById_eq_nil_iff _).mp hcon)
    have hlen : (resolveRecipients db camp).length ≠ 0 := by
      intro hcon
      exact hnn (List.eq_nil_of_length_eq_zero hcon)
    unfold process_campaign_task
    rw [if_neg (not_not_intro hd)]
    simp only [resolveRecipients_reset]
    rw [if_neg hlen]
    refine ⟨rfl, ?_⟩
    simp [hnn]

/-- Witness for C3 at concrete inputs: with only an unsubscribed
contact in the database, dispatch fails with zero recipients. -/
theorem C3_no_lists_no_segments_witness :
    (process_campaign_task [cUnsubB] campEmptyDraft 7).campaign.status = CStatus.failed ∧
    (process_campaign_task [cUnsubB] campEmptyDraft 7).campaign.total_recipients = 0 ∧
    (process_campaign_task [cUnsubB] campEmptyDraft 7).enqueued = [] := by
  have h := (C3_no_lists_no_segments [cUnsubB] campEmptyDraft 7 rfl rfl
    (by decide)).2.1 (by decide)
  exact ⟨h.1, h.2.1, h.2.2.2⟩

end BulkMailer
